import Mathlib

/-!
Shallow embedding of the Smart Study Recommender backend
(src/main.py, src/schemas.py).

Documents of the Mongo-like store are modelled as ordered association
lists from field names to BSON-like values (Python dicts preserve
insertion order and have unique keys).  The store itself is a record of
the three touched collections.  Handlers become pure Lean functions from
an optional store (`db is None` in main.py models an unconfigured store)
and the request parameters to either an HTTP-error value or a result,
together with the updated store for the mutating handlers.

The `$regex` filters built by main.py are interpreted by the document
store's regex engine; this embedding models that engine on the fragment
the filters exercise: literal characters and the `.` metacharacter (any
single character), with the `i` option as case folding, anchored
(`^pat$`) for the recommendations filters and unanchored search for the
search endpoint's filters.
-/

namespace SSR

/-- BSON-like values stored in documents. -/
inductive Value where
  | null : Value
  | str (s : String) : Value
  | int (n : Int) : Value
  | num (q : Rat) : Value
  | bool (b : Bool) : Value
  | arr (vs : List Value) : Value
  | obj (fields : List (String × Value)) : Value

/-- A document: ordered association list with unique keys (a Python dict). -/
abbrev Doc := List (String × Value)

/-- Field lookup in a document (`doc[k]` / `doc.get(k)`). -/
def getVal (d : Doc) (k : String) : Option Value :=
  match d with
  | [] => none
  | kv :: t => if kv.1 == k then some kv.2 else getVal t k

/-- Field assignment `d[k] = v` on a Python dict: replaces the value in
place when the key is present, appends the pair otherwise. -/
def setVal (d : Doc) (k : String) (v : Value) : Doc :=
  match d with
  | [] => [(k, v)]
  | kv :: t => if kv.1 == k then (k, v) :: t else kv :: setVal t k v

/-- Python `str()` restricted to the scalar values that appear as
identifiers; composite values receive a fixed rendering (never exercised
by the API, whose identifiers are strings or numbers). -/
def pyStr : Value → String
  | .str s => s
  | .int n => toString n
  | .num q => toString q
  | .bool b => if b then "True" else "False"
  | .null => "None"
  | .arr _ => "[array]"
  | .obj _ => "[object]"

/-- Python truthiness of an `Optional[str]` parameter: `if category:` is
false for both `None` and the empty string. -/
def truthyStr : Option String → Bool
  | none => false
  | some s => s != ""

/-- Case-insensitive match of one pattern character: `.` matches any
character, any other character matches its case-folded self. -/
def charMatchCI (p c : Char) : Bool :=
  p == '.' || p.toLower == c.toLower

/-- Anchored (`^pat$`) case-insensitive regex match: the pattern must
consume the whole subject. -/
def matchFullCI : List Char → List Char → Bool
  | [], [] => true
  | [], _ :: _ => false
  | _ :: _, [] => false
  | p :: ps, c :: cs => charMatchCI p c && matchFullCI ps cs

/-- Match of the pattern against some prefix of the subject. -/
def matchHeadCI : List Char → List Char → Bool
  | [], _ => true
  | _ :: _, [] => false
  | p :: ps, c :: cs => charMatchCI p c && matchHeadCI ps cs

/-- Unanchored case-insensitive regex search: the pattern matches at some
position of the subject. -/
def searchAuxCI (ps : List Char) : List Char → Bool
  | [] => matchHeadCI ps []
  | c :: cs => matchHeadCI ps (c :: cs) || searchAuxCI ps cs

/-- `{"$regex": f"^{pat}$", "$options": "i"}` applied to a string. -/
def regexFullCI (pat s : String) : Bool :=
  matchFullCI pat.toList s.toList

/-- `{"$regex": pat, "$options": "i"}` applied to a string. -/
def regexSearchCI (pat s : String) : Bool :=
  searchAuxCI pat.toList s.toList

/-- A string-valued field equals `s` (`find_one({"_id": res_id})` style
equality match; non-string and missing fields do not match). -/
def isStrEq (v : Option Value) (s : String) : Bool :=
  match v with
  | some (.str t) => t == s
  | _ => false

/-- Anchored case-insensitive regex filter on a string field, as built by
`get_recommendations` for `category` and `level`. -/
def fieldRegexFull (field pat : String) (d : Doc) : Bool :=
  match getVal d field with
  | some (.str s) => regexFullCI pat s
  | _ => false

/-- Unanchored case-insensitive regex filter on a string field, as built
by `search` for `category` and `level`. -/
def fieldRegexSearch (field pat : String) (d : Doc) : Bool :=
  match getVal d field with
  | some (.str s) => regexSearchCI pat s
  | _ => false

/-- The filter `get_recommendations` builds: anchored case-insensitive
regex on `category` and `level`, each only when the parameter is truthy. -/
def matchesRecFilter (category level : Option String) (d : Doc) : Bool :=
  (match category with
   | some c => if c == "" then true else fieldRegexFull "category" c d
   | none => true) &&
  (match level with
   | some l => if l == "" then true else fieldRegexFull "level" l d
   | none => true)

/-- `$elemMatch` with an unanchored case-insensitive regex on the `tags`
array: some string entry matches. -/
def tagsElemMatch (q : String) (d : Doc) : Bool :=
  match getVal d "tags" with
  | some (.arr vs) =>
      vs.any (fun v => match v with | .str s => regexSearchCI q s | _ => false)
  | _ => false

/-- The filter the `search` endpoint builds: `$or` of an unanchored regex
on `title` and an `$elemMatch` regex on `tags`, conjoined with unanchored
regex filters on `category`/`level` when those parameters are truthy. -/
def searchMatches (q : String) (category level : Option String) (d : Doc) : Bool :=
  (fieldRegexSearch "title" q d || tagsElemMatch q d) &&
  (match category with
   | some c => if c == "" then true else fieldRegexSearch "category" c d
   | none => true) &&
  (match level with
   | some l => if l == "" then true else fieldRegexSearch "level" l d
   | none => true)

/-- State of the document store: the three collections main.py touches. -/
structure DBState where
  resource : List Doc
  roadmap : List Doc
  saveditem : List Doc

/-- An HTTPException: status code and detail string. -/
structure HErr where
  status : Nat
  detail : String

/-- `HTTPException(status_code=500, detail="Database not configured")`. -/
def dbError : HErr := ⟨500, "Database not configured"⟩

/-- `HTTPException(status_code=404, detail="Resource not found")`. -/
def resourceNotFound : HErr := ⟨404, "Resource not found"⟩

/-- `HTTPException(status_code=404, detail="Roadmap not found")`. -/
def roadmapNotFound : HErr := ⟨404, "Roadmap not found"⟩

/-- Sort key `metadata.views` (dot path into the nested document);
non-integer or missing values have no key and sort lowest. -/
def viewsOf (d : Doc) : Option Int :=
  match getVal d "metadata" with
  | some (.obj m) =>
      match getVal m "views" with
      | some (.int n) => some n
      | _ => none
  | _ => none

/-- Sort key `created_at`; missing values sort lowest. -/
def createdOf (d : Doc) : Option Int :=
  match getVal d "created_at" with
  | some (.int n) => some n
  | _ => none

/-- Order on optional keys with `none` lowest. -/
def optIntLe (a b : Option Int) : Bool :=
  match a, b with
  | none, _ => true
  | some _, none => false
  | some x, some y => decide (x ≤ y)

/-- `a` precedes `b` in the recommendations sort
`[("metadata.views", -1), ("created_at", -1)]`: views descending, then
`created_at` descending. -/
def recBefore (a b : Doc) : Bool :=
  if viewsOf a == viewsOf b then optIntLe (createdOf b) (createdOf a)
  else optIntLe (viewsOf b) (viewsOf a)

/-- Insert a document into a list sorted by `recBefore`. -/
def insertSorted (d : Doc) : List Doc → List Doc
  | [] => [d]
  | e :: es => if recBefore d e then d :: e :: es else e :: insertSorted d es

/-- The recommendations sort applied to the matching documents. -/
def sortRecs (l : List Doc) : List Doc :=
  l.foldr insertSorted []

/-- The response normalizer `_resource_to_public`: drop the `_id` field
and, when one was present, expose it as `id`, stringified unless already
a string (note: an existing `id` field is overwritten by the dict
assignment `d["id"] = ...`). -/
def resource_to_public (doc : Doc) : Doc :=
  let d := doc.filter (fun kv => kv.1 != "_id")
  match getVal doc "_id" with
  | some v => setVal d "id" (Value.str (pyStr v))
  | none => d

/-- The pagination metadata `{"page": page, "limit": limit, "total": total}`. -/
structure Meta where
  page : Nat
  limit : Nat
  total : Nat

/-- The envelope `{"data": [...], "meta": {...}}`. -/
structure Envelope where
  data : List Doc
  meta : Meta

/-- GET `/api/recommendations`: filter, sort, count the full filtered set,
then slice `skip = (page - 1) * limit`, take `limit`, and normalize. -/
def get_recommendations (store : Option DBState) (category level : Option String)
    (page limit : Nat) : Except HErr Envelope :=
  match store with
  | none => .error dbError
  | some db =>
      let matching := db.resource.filter (matchesRecFilter category level)
      .ok { data := (((sortRecs matching).drop ((page - 1) * limit)).take limit).map
                      resource_to_public,
            meta := { page := page, limit := limit, total := matching.length } }

/-- Python `a or b` on `find_one` results: an empty dict is falsy. -/
def pyOr (a b : Option Doc) : Option Doc :=
  match a with
  | some d => if d.isEmpty then b else some d
  | none => b

/-- GET `/api/resource/{res_id}`: look up by `_id`, fall back to the `id`
field, 404 when neither matches (or the result is falsy). -/
def get_resource (store : Option DBState) (rid : String) : Except HErr Doc :=
  match store with
  | none => .error dbError
  | some db =>
      match pyOr (db.resource.find? (fun d => isStrEq (getVal d "_id") rid))
                 (db.resource.find? (fun d => isStrEq (getVal d "id") rid)) with
      | none => .error resourceNotFound
      | some d => if d.isEmpty then .error resourceNotFound
                  else .ok (resource_to_public d)

/-- A validated `Roadmap` payload (schemas.py); `progress` is
`Optional[float]` with `ge=0, le=100` enforced by pydantic on non-null
values. -/
structure RoadmapP where
  userId : String
  title : String
  items : List Doc
  progress : Option Rat

/-- Pydantic validation of the `progress` constraint `ge=0, le=100`
(skipped when the optional value is null). -/
def validRoadmapP (p : RoadmapP) : Bool :=
  match p.progress with
  | some q => decide (0 ≤ q ∧ q ≤ 100)
  | none => true

/-- `model_dump()` of a Roadmap payload. -/
def roadmapDoc (p : RoadmapP) : Doc :=
  [("userId", .str p.userId),
   ("title", .str p.title),
   ("items", .arr (p.items.map Value.obj)),
   ("progress", match p.progress with | some q => .num q | none => .null)]

/-- Modelled from the spec: `create_document` (from database.py, which is
not part of the sources) "persists it, returns a generated identifier" —
it inserts the dumped payload into the named collection with a
store-generated `_id` and returns that identifier. -/
def create_document (coll : List Doc) (payload : Doc) (genId : String) :
    List Doc × String :=
  (coll ++ [setVal payload "_id" (.str genId)], genId)

/-- POST `/api/roadmap`: validate, persist, return the generated id.
`genId` stands for the store-generated identifier. -/
def create_roadmap (store : Option DBState) (p : RoadmapP) (genId : String) :
    Option DBState × Except HErr String :=
  match store with
  | none => (none, .error dbError)
  | some db =>
      let r := create_document db.roadmap (roadmapDoc p) genId
      (some { db with roadmap := r.1 }, .ok r.2)

/-- Update the first document satisfying `p` (Mongo `update_one`); no
match leaves the collection unchanged. -/
def updateFirst (l : List Doc) (p : Doc → Bool) (f : Doc → Doc) : List Doc :=
  match l with
  | [] => []
  | d :: ds => if p d then f d :: ds else d :: updateFirst ds p f

/-- `$set` of a patch body: each key-value pair is assigned at top level. -/
def applyPatch (d : Doc) (body : Doc) : Doc :=
  body.foldl (fun acc kv => setVal acc kv.1 kv.2) d

/-- A roadmap document matches `{"_id": roadmap_id}`. -/
def hasId (rid : String) (d : Doc) : Bool :=
  isStrEq (getVal d "_id") rid

/-- PATCH `/api/roadmap/{roadmap_id}`: `update_one({"_id": id}, {"$set":
body})`, then 404 when `matched_count == 0`. -/
def update_roadmap (store : Option DBState) (rid : String) (body : Doc) :
    Option DBState × Except HErr Bool :=
  match store with
  | none => (none, .error dbError)
  | some db =>
      if db.roadmap.any (hasId rid) then
        (some { db with
                roadmap := updateFirst db.roadmap (hasId rid)
                             (fun d => applyPatch d body) }, .ok true)
      else (some db, .error roadmapNotFound)

/-- A validated `SavedItem` payload (schemas.py). -/
structure SavedItemP where
  userId : String
  resourceId : String
  createdAt : Option Int

/-- `model_dump()` of a SavedItem payload. -/
def savedItemDoc (p : SavedItemP) : Doc :=
  [("userId", .str p.userId),
   ("resourceId", .str p.resourceId),
   ("createdAt", match p.createdAt with | some t => .int t | none => .null)]

/-- A saved-item document matches `{"userId": u, "resourceId": r}`. -/
def pairMatches (u r : String) (d : Doc) : Bool :=
  isStrEq (getVal d "userId") u && isStrEq (getVal d "resourceId") r

/-- Effect on the store of `update_one(pair, {"$setOnInsert": data},
upsert=True)`: insert the dumped payload when no document matches the
pair, otherwise change nothing (`$setOnInsert` touches no existing
document). -/
def saveStep (db : DBState) (p : SavedItemP) : DBState :=
  if db.saveditem.any (pairMatches p.userId p.resourceId) then db
  else { db with saveditem := db.saveditem ++ [savedItemDoc p] }

/-- POST `/api/saved`: conditional insert, `{"ok": True}` in all cases. -/
def save_item (store : Option DBState) (p : SavedItemP) :
    Option DBState × Except HErr Bool :=
  match store with
  | none => (none, .error dbError)
  | some db => (some (saveStep db p), .ok true)

/-- Iterate `save_item` calls for the same payload. -/
def saveIter (p : SavedItemP) : Nat → DBState → DBState
  | 0, db => db
  | n + 1, db => saveIter p n (saveStep db p)

/-- Number of persisted saved-item records for a (userId, resourceId) pair. -/
def pairCount (u r : String) (db : DBState) : Nat :=
  db.saveditem.countP (pairMatches u r)

/-- GET `/api/search`: filter, clamp the limit to `min(50, max(1, limit))`,
slice and normalize; no sort is applied. -/
def search (store : Option DBState) (q : String) (category level : Option String)
    (limit : Int) : Except HErr (List Doc) :=
  match store with
  | none => .error dbError
  | some db =>
      .ok (((db.resource.filter (searchMatches q category level)).take
              (min 50 (max 1 limit)).toNat).map resource_to_public)

/-- The spec's Roadmap invariant "progress clamped to [0,100]" as a
predicate on stored documents: a numeric `progress` field lies in
[0,100]; a null or absent field does not violate it; a non-numeric value
does. -/
def progressOk (d : Doc) : Bool :=
  match getVal d "progress" with
  | some (.num q) => decide (0 ≤ q ∧ q ≤ 100)
  | some (.int n) => decide (0 ≤ n ∧ n ≤ 100)
  | some .null => true
  | none => true
  | some _ => false

/-- Follows the spec's words for the category/level filter semantics:
"exact match, case-insensitive, against the full field value" — case-folded
equality of the two whole strings. -/
def specCaseInsensEq (a b : String) : Bool :=
  a.toList.map Char.toLower == b.toList.map Char.toLower

/-- One string of characters occurs contiguously inside another. -/
def sublistOccurs (n : List Char) : List Char → Bool
  | [] => n.isEmpty
  | c :: cs => n.isPrefixOf (c :: cs) || sublistOccurs n cs

/-- Follows the spec's words for the search semantics: "contains the
string as a case-insensitive substring" — literal substring containment
after case folding. -/
def specContainsCI (needle hay : String) : Bool :=
  sublistOccurs (needle.toList.map Char.toLower) (hay.toList.map Char.toLower)

/-- Fixture: a resource whose category is the three literal characters
`abc`. -/
def doc_c2 : Doc := [("category", Value.str "abc")]

/-- Fixture: a resource titled with the three literal characters `abc`. -/
def doc_c4 : Doc := [("title", Value.str "abc"), ("tags", Value.arr [])]

/-- Fixture: a raw document carrying both a store-internal `_id` and a
distinct public `id` field. -/
def doc_c5 : Doc := [("_id", Value.str "new"), ("id", Value.str "old")]

/-- Fixture: a store holding one roadmap with in-range progress. -/
def db_c7 : DBState :=
  ⟨[], [[("_id", Value.str "r1"), ("progress", Value.num 50)]], []⟩

/-- Fixture: the same store after patching progress to 150. -/
def db_c7' : DBState :=
  ⟨[], [[("_id", Value.str "r1"), ("progress", Value.num 150)]], []⟩

/-- Fixture: three resources with no sort keys and no `_id`. -/
def db_w1 : DBState :=
  ⟨[[("title", Value.str "A")], [("title", Value.str "B")],
    [("title", Value.str "C")]], [], []⟩

/-- Fixture: the envelope page 1 / limit 2 of `db_w1` produces. -/
def env_w1 : Envelope :=
  ⟨[[("title", Value.str "A")], [("title", Value.str "B")]], ⟨1, 2, 3⟩⟩

/-- Fixture: a saved-item payload. -/
def p_w3 : SavedItemP := ⟨"u1", "r1", none⟩

/-- Fixture: a raw document with an integer store identifier. -/
def doc_w5 : Doc := [("_id", Value.int 7), ("title", Value.str "T")]

/-- Fixture: a store holding one roadmap with id `r1`. -/
def db_w6 : DBState :=
  ⟨[], [[("_id", Value.str "r1"), ("progress", Value.num 50)]], []⟩

/-- Fixture: a valid roadmap payload. -/
def p_w7 : RoadmapP := ⟨"u1", "T", [], some 50⟩

/-- Fixture: the document `create_roadmap` persists for `p_w7`. -/
def doc_w7 : Doc := setVal (roadmapDoc p_w7) "_id" (Value.str "g1")

/-- Fixture: a resource document with a public `id` field and no `_id`. -/
def doc_w10 : Doc := [("id", Value.str "x7"), ("title", Value.str "T")]

/-- Fixture: a store holding only `doc_w10`. -/
def db_w10 : DBState := ⟨[doc_w10], [], []⟩

/-! Helper lemmas about document field access. -/

theorem getVal_filter_self (d : Doc) (k : String) :
    getVal (d.filter (fun kv => kv.1 != k)) k = none := by
  induction d with
  | nil => rfl
  | cons kv t ih =>
      by_cases h : kv.1 = k
      · simp [List.filter_cons, h, ih]
      · simp [List.filter_cons, h, getVal, ih]

theorem getVal_filter_ne (d : Doc) (k k' : String) (h : k ≠ k') :
    getVal (d.filter (fun kv => kv.1 != k')) k = getVal d k := by
  induction d with
  | nil => rfl
  | cons kv t ih =>
      by_cases hd : kv.1 = k'
      · have hk : kv.1 ≠ k := by rw [hd]; exact fun hkk => h hkk.symm
        simp [List.filter_cons, hd, getVal, hk, ih, Ne.symm h]
      · simp [List.filter_cons, hd, getVal, ih]

theorem getVal_setVal_self (d : Doc) (k : String) (v : Value) :
    getVal (setVal d k v) k = some v := by
  induction d with
  | nil => simp [setVal, getVal]
  | cons kv t ih =>
      by_cases h : kv.1 = k
      · simp [setVal, h, getVal]
      · simp [setVal, h, getVal, ih]

theorem getVal_setVal_ne (d : Doc) (k k' : String) (v : Value) (h : k' ≠ k) :
    getVal (setVal d k v) k' = getVal d k' := by
  induction d with
  | nil => simp [setVal, getVal, Ne.symm h]
  | cons kv t ih =>
      by_cases hk : kv.1 = k
      · simp [setVal, hk, getVal, Ne.symm h]
      · simp [setVal, hk, getVal, ih]

/-! Helper lemmas about the recommendations sort. -/

theorem length_insertSorted (d : Doc) (l : List Doc) :
    (insertSorted d l).length = l.length + 1 := by
  induction l with
  | nil => rfl
  | cons e es ih =>
      by_cases h : recBefore d e
      · simp [insertSorted, h]
      · simp [insertSorted, h, ih]

theorem length_sortRecs (l : List Doc) : (sortRecs l).length = l.length := by
  induction l with
  | nil => rfl
  | cons d t ih =>
      show (insertSorted d (sortRecs t)).length = t.length + 1
      rw [length_insertSorted, ih]

/-! Helper lemmas about saved-item records. -/

theorem pairMatches_savedItemDoc (p : SavedItemP) :
    pairMatches p.userId p.resourceId (savedItemDoc p) = true := by
  simp [pairMatches, savedItemDoc, isStrEq, getVal]

theorem pairCount_saveStep (db : DBState) (p : SavedItemP) :
    pairCount p.userId p.resourceId (saveStep db p) =
      if pairCount p.userId p.resourceId db = 0 then 1
      else pairCount p.userId p.resourceId db := by
  unfold saveStep pairCount
  by_cases h : db.saveditem.any (pairMatches p.userId p.resourceId)
  · obtain ⟨x, hx, hpx⟩ := List.any_eq_true.mp h
    have hz : db.saveditem.countP (pairMatches p.userId p.resourceId) ≠ 0 := by
      intro h0
      exact absurd hpx (by simpa using List.countP_eq_zero.mp h0 x hx)
    simp [h, hz]
  · have hz : db.saveditem.countP (pairMatches p.userId p.resourceId) = 0 :=
      List.countP_eq_zero.mpr (fun a ha => by
        simpa using List.any_eq_false.mp (Bool.of_not_eq_true h) a ha)
    simp [h, hz, List.countP_append, List.countP_cons, pairMatches_savedItemDoc]

theorem pairCount_saveIter_stable (p : SavedItemP) (n : Nat) :
    ∀ db : DBState, pairCount p.userId p.resourceId db = 1 →
      pairCount p.userId p.resourceId (saveIter p n db) = 1 := by
  induction n with
  | zero => intro db h; exact h
  | succ m ih =>
      intro db h
      have hstep : pairCount p.userId p.resourceId (saveStep db p) = 1 := by
        rw [pairCount_saveStep, h]; rfl
      exact ih (saveStep db p) hstep

/-! Helper lemmas about membership in sorted and combined lookups. -/

theorem mem_insertSorted (d : Doc) (l : List Doc) (x : Doc) :
    x ∈ insertSorted d l → x = d ∨ x ∈ l := by
  induction l with
  | nil => intro h; simpa [insertSorted] using h
  | cons e es ih =>
      intro h
      by_cases hb : recBefore d e
      · simpa [insertSorted, hb] using h
      · simp [insertSorted, hb] at h
        rcases h with h | h
        · exact Or.inr (List.mem_cons.mpr (Or.inl h))
        · rcases ih h with h' | h'
          · exact Or.inl h'
          · exact Or.inr (List.mem_cons.mpr (Or.inr h'))

theorem mem_sortRecs (l : List Doc) (x : Doc) (h : x ∈ sortRecs l) : x ∈ l := by
  induction l with
  | nil => simpa [sortRecs] using h
  | cons d t ih =>
      have h' : x ∈ insertSorted d (sortRecs t) := h
      rcases mem_insertSorted d (sortRecs t) x h' with h1 | h1
      · exact List.mem_cons.mpr (Or.inl h1)
      · exact List.mem_cons.mpr (Or.inr (ih h1))

theorem pyOr_eq_some (a b : Option Doc) (d : Doc) (h : pyOr a b = some d) :
    a = some d ∨ b = some d := by
  cases a with
  | none => exact Or.inr h
  | some d0 =>
      by_cases he : d0.isEmpty
      · simp only [pyOr, he, ite_true] at h
        exact Or.inr h
      · simp only [pyOr, he, ite_false] at h
        exact Or.inl h

/-! Claim theorems. -/

/-- C1: for every valid recommendations request (`page ≥ 1`,
`limit ∈ [1,50]`) against a configured store, the handler returns the
envelope `{data, meta: {page, limit, total}}` where `data` is the
normalized window of the sorted matching documents starting at offset
`(page - 1) * limit`, `len(data) ≤ limit`, and `meta.total` is the count
of all documents matching the filter, independent of the pagination
window. -/
theorem recommendations_envelope (db : DBState) (cat lvl : Option String)
    (page limit : Nat) (hp : 1 ≤ page) (hl1 : 1 ≤ limit) (hl2 : limit ≤ 50) :
    get_recommendations (some db) cat lvl page limit =
      .ok { data := (((sortRecs (db.resource.filter (matchesRecFilter cat lvl))).drop
                       ((page - 1) * limit)).take limit).map resource_to_public,
            meta := { page := page, limit := limit,
                      total := (db.resource.filter (matchesRecFilter cat lvl)).length } } ∧
    ∀ env, get_recommendations (some db) cat lvl page limit = .ok env →
      env.data.length ≤ limit ∧
      env.meta.total = (db.resource.filter (matchesRecFilter cat lvl)).length := by
  have key : get_recommendations (some db) cat lvl page limit =
      .ok { data := (((sortRecs (db.resource.filter (matchesRecFilter cat lvl))).drop
                       ((page - 1) * limit)).take limit).map resource_to_public,
            meta := { page := page, limit := limit,
                      total := (db.resource.filter (matchesRecFilter cat lvl)).length } } := rfl
  refine ⟨key, ?_⟩
  intro env henv
  rw [key] at henv
  injection henv with h
  subst h
  refine ⟨?_, rfl⟩
  simp only [List.length_map, List.length_take]
  exact min_le_left _ _

/-- C1 witness: on a store of three resources, page 1 with limit 2 yields
the first two documents with `total = 3`. -/
theorem recommendations_envelope_witness :
    get_recommendations (some db_w1) none none 1 2 = .ok env_w1 ∧
    env_w1.data.length ≤ 2 ∧ env_w1.meta.total = 3 := by
  have h := recommendations_envelope db_w1 none none 1 2 (by decide) (by decide) (by decide)
  exact ⟨h.1, (h.2 env_w1 h.1).1, rfl⟩

/-- C2 (divergence evidence): the recommendations category filter is built
as an unescaped anchored case-insensitive regex, so the filter string
`a.c` matches a document whose category is `abc` via the `.` wildcard,
although the two strings are not case-insensitively equal — the filter is
not the anchored case-insensitive equality the claim states for every
filter string. -/
theorem category_filter_pattern_injection :
    matchesRecFilter (some "a.c") none doc_c2 = true ∧
    specCaseInsensEq "a.c" "abc" = false ∧
    get_recommendations (some ⟨[doc_c2], [], []⟩) (some "a.c") none 1 12 =
      .ok { data := [doc_c2], meta := { page := 1, limit := 12, total := 1 } } :=
  ⟨rfl, by decide, rfl⟩

/-- C3: `save_item` reports success and inserts the payload only when no
record with the same (userId, resourceId) pair exists; an existing record
leaves the store entirely unchanged; and starting from a store with no
record for the pair, any positive number of calls leaves exactly one
record for the pair. -/
theorem save_item_insert_if_absent (db : DBState) (p : SavedItemP) :
    (db.saveditem.any (pairMatches p.userId p.resourceId) = true →
        save_item (some db) p = (some db, .ok true)) ∧
    (db.saveditem.any (pairMatches p.userId p.resourceId) = false →
        save_item (some db) p =
          (some { db with saveditem := db.saveditem ++ [savedItemDoc p] }, .ok true)) ∧
    (pairCount p.userId p.resourceId db = 0 →
        ∀ n : Nat, pairCount p.userId p.resourceId (saveIter p (n + 1) db) = 1) := by
  refine ⟨fun h => ?_, fun h => ?_, fun h n => ?_⟩
  · simp [save_item, saveStep, h]
  · simp [save_item, saveStep, h]
  · have hstep : pairCount p.userId p.resourceId (saveStep db p) = 1 := by
      rw [pairCount_saveStep, h]; rfl
    exact pairCount_saveIter_stable p n (saveStep db p) hstep

/-- C3 witness: saving `("u1", "r1")` into an empty store inserts one
record, and three consecutive saves still leave exactly one. -/
theorem save_item_insert_if_absent_witness :
    save_item (some ⟨[], [], []⟩) p_w3 =
      (some ⟨[], [], [savedItemDoc p_w3]⟩, .ok true) ∧
    pairCount "u1" "r1" (saveIter p_w3 3 ⟨[], [], []⟩) = 1 := by
  have h := save_item_insert_if_absent ⟨[], [], []⟩ p_w3
  exact ⟨h.2.1 rfl, h.2.2 rfl 2⟩

/-- C4 (divergence evidence): the search filter is built from unescaped
unanchored case-insensitive regexes, so the query `a.c` matches a
resource titled `abc` via the `.` wildcard, although `a.c` is not a
case-insensitive substring of `abc` — search is not the literal
substring containment the claim states for every query string. -/
theorem search_pattern_injection :
    searchMatches "a.c" none none doc_c4 = true ∧
    specContainsCI "a.c" "abc" = false ∧
    search (some ⟨[doc_c4], [], []⟩) "a.c" none none 20 = .ok [doc_c4] :=
  ⟨rfl, rfl, rfl⟩

/-- C5 counterexample: on a raw document that carries both `_id` and a
distinct `id` field, the normalizer overwrites the input's `id` field with
the stringified `_id`, so not every non-`_id` field of the input is
present unchanged in the output, contrary to the claim. -/
theorem resource_to_public_overwrites_id :
    getVal doc_c5 "id" = some (Value.str "old") ∧
    getVal (resource_to_public doc_c5) "id" = some (Value.str "new") ∧
    getVal (resource_to_public doc_c5) "id" ≠ getVal doc_c5 "id" := by
  refine ⟨rfl, rfl, fun h => ?_⟩
  have h2 := congrArg (Option.map pyStr) h
  exact absurd h2 (by decide)

/-- C5 (amended): for every raw document with a store-internal `_id`
field of value `x`, the normalizer removes `_id`, exposes `id` as the
stringification of `x` (the string itself when already a string), and
passes every field other than `_id` and `id` through unchanged (a
pre-existing `id` field is overwritten); and this normalization is
applied to every document returned from the Resource queries — each
document the recommendations, get-one, and search handlers return is the
normalizer applied to a stored raw document. -/
theorem resource_to_public_normalizes (doc : Doc) (x : Value)
    (hx : getVal doc "_id" = some x) :
    (getVal (resource_to_public doc) "_id" = none ∧
     getVal (resource_to_public doc) "id" = some (Value.str (pyStr x)) ∧
     ∀ k, k ≠ "_id" → k ≠ "id" →
       getVal (resource_to_public doc) k = getVal doc k) ∧
    (∀ db cat lvl page limit env,
       get_recommendations (some db) cat lvl page limit = .ok env →
       ∀ d ∈ env.data, ∃ raw ∈ db.resource, d = resource_to_public raw) ∧
    (∀ db rid d', get_resource (some db) rid = .ok d' →
       ∃ raw ∈ db.resource, d' = resource_to_public raw) ∧
    (∀ db q cat lvl limit out, search (some db) q cat lvl limit = .ok out →
       ∀ d ∈ out, ∃ raw ∈ db.resource, d = resource_to_public raw) := by
  refine ⟨?_, ?_, ?_, ?_⟩
  · unfold resource_to_public
    rw [hx]
    refine ⟨?_, ?_, ?_⟩
    · rw [getVal_setVal_ne _ _ _ _ (by decide)]
      exact getVal_filter_self doc "_id"
    · exact getVal_setVal_self _ _ _
    · intro k h1 h2
      rw [getVal_setVal_ne _ _ _ _ h2]
      exact getVal_filter_ne doc k "_id" h1
  · intro db cat lvl page limit env henv
    have key : get_recommendations (some db) cat lvl page limit =
        .ok { data := (((sortRecs (db.resource.filter (matchesRecFilter cat lvl))).drop
                         ((page - 1) * limit)).take limit).map resource_to_public,
              meta := { page := page, limit := limit,
                        total := (db.resource.filter (matchesRecFilter cat lvl)).length } } :=
      rfl
    rw [key] at henv
    injection henv with henv
    subst henv
    intro d hd
    obtain ⟨raw, hraw, hde⟩ := List.mem_map.mp hd
    have h1 : raw ∈ sortRecs (db.resource.filter (matchesRecFilter cat lvl)) :=
      List.mem_of_mem_drop (List.mem_of_mem_take hraw)
    have h2 := mem_sortRecs _ _ h1
    exact ⟨raw, (List.mem_filter.mp h2).1, hde.symm⟩
  · intro db rid d' h
    have h' : (match pyOr (db.resource.find? (fun d => isStrEq (getVal d "_id") rid))
                   (db.resource.find? (fun d => isStrEq (getVal d "id") rid)) with
               | none => (.error resourceNotFound : Except HErr Doc)
               | some d => if d.isEmpty then .error resourceNotFound
                           else .ok (resource_to_public d)) = .ok d' := h
    cases hpy : pyOr (db.resource.find? (fun d => isStrEq (getVal d "_id") rid))
        (db.resource.find? (fun d => isStrEq (getVal d "id") rid)) with
    | none => rw [hpy] at h'; exact absurd h' (by simp)
    | some d =>
        rw [hpy] at h'
        have h'' : (if d.isEmpty then (.error resourceNotFound : Except HErr Doc)
            else .ok (resource_to_public d)) = .ok d' := h'
        by_cases he : d.isEmpty
        · rw [if_pos he] at h''
          exact absurd h'' (by simp)
        · rw [if_neg he] at h''
          have hmem : d ∈ db.resource := by
            rcases pyOr_eq_some _ _ _ hpy with h1 | h1
            · exact List.mem_of_find?_eq_some h1
            · exact List.mem_of_find?_eq_some h1
          exact ⟨d, hmem, (Except.ok.inj h'').symm⟩
  · intro db q cat lvl limit out h
    have key : search (some db) q cat lvl limit =
        .ok (((db.resource.filter (searchMatches q cat lvl)).take
               (min 50 (max 1 limit)).toNat).map resource_to_public) := rfl
    rw [key] at h
    injection h with h
    subst h
    intro d hd
    obtain ⟨raw, hraw, hde⟩ := List.mem_map.mp hd
    have h1 := List.mem_of_mem_take hraw
    exact ⟨raw, (List.mem_filter.mp h1).1, hde.symm⟩

/-- C5 witness: a document with integer `_id` 7 is normalized to carry
`id = "7"`, no `_id`, and an untouched `title`. -/
theorem resource_to_public_normalizes_witness :
    getVal (resource_to_public doc_w5) "_id" = none ∧
    getVal (resource_to_public doc_w5) "id" = some (Value.str "7") ∧
    getVal (resource_to_public doc_w5) "title" = getVal doc_w5 "title" := by
  have h := resource_to_public_normalizes doc_w5 (Value.int 7) rfl
  exact ⟨h.1.1, h.1.2.1, h.1.2.2 "title" (by decide) (by decide)⟩

/-- C6: when no roadmap carries the given identifier, the partial update
fails with the 404 NotFound error and the store is returned unchanged;
when one does, the patch is merged into the first matching document's
top-level fields and the handler reports ok. -/
theorem update_roadmap_merges_or_404 (db : DBState) (rid : String) (body : Doc) :
    (db.roadmap.any (hasId rid) = false →
        update_roadmap (some db) rid body = (some db, .error roadmapNotFound) ∧
        roadmapNotFound.status = 404) ∧
    (db.roadmap.any (hasId rid) = true →
        update_roadmap (some db) rid body =
          (some { db with roadmap := updateFirst db.roadmap (hasId rid)
                            (fun d => applyPatch d body) }, .ok true)) := by
  refine ⟨fun h => ⟨?_, rfl⟩, fun h => ?_⟩
  · simp [update_roadmap, h]
  · simp [update_roadmap, h]

/-- C6 witness: patching a missing id 404s and leaves the store as it
was; patching the present id `r1` merges the field and reports ok. -/
theorem update_roadmap_merges_or_404_witness :
    update_roadmap (some db_w6) "zz" [("progress", Value.num 10)] =
      (some db_w6, .error roadmapNotFound) ∧
    update_roadmap (some db_w6) "r1" [("progress", Value.num 10)] =
      (some ⟨[], [[("_id", Value.str "r1"), ("progress", Value.num 10)]], []⟩, .ok true) := by
  have h1 := update_roadmap_merges_or_404 db_w6 "zz" [("progress", Value.num 10)]
  have h2 := update_roadmap_merges_or_404 db_w6 "r1" [("progress", Value.num 10)]
  exact ⟨(h1.1 rfl).1, h2.2 rfl⟩

/-- C7 counterexample: the partial-update handler applies the patch body
without validation, so patching `progress` to 150 persists a roadmap
whose progress lies outside [0,100] — the stated invariant is not
preserved by the roadmap partial update. -/
theorem update_roadmap_breaks_progress_invariant :
    db_c7.roadmap.all progressOk = true ∧
    update_roadmap (some db_c7) "r1" [("progress", Value.num 150)] =
      (some db_c7', .ok true) ∧
    db_c7'.roadmap.all progressOk = false := by
  refine ⟨by decide, rfl, by decide⟩

/-- C7 (amended): roadmap creation preserves the progress invariant —
a validated payload (pydantic enforces `0 ≤ progress ≤ 100` on non-null
values) persisted into a store whose roadmaps all satisfy the invariant
leaves every stored roadmap satisfying it; the partial-update operation,
however, applies unvalidated patches and can violate it. -/
theorem roadmap_progress_invariant_on_create (db : DBState) (p : RoadmapP)
    (genId : String) (hv : validRoadmapP p = true)
    (hinv : ∀ d ∈ db.roadmap, progressOk d = true) :
    ∀ db' r, create_roadmap (some db) p genId = (some db', r) →
      ∀ d ∈ db'.roadmap, progressOk d = true := by
  intro db' r h
  have hfst := congrArg Prod.fst h
  have hdb : { db with roadmap := db.roadmap ++ [setVal (roadmapDoc p) "_id"
      (Value.str genId)] } = db' := Option.some.inj hfst
  subst hdb
  intro d hd
  rcases List.mem_append.mp hd with h1 | h2
  · exact hinv d h1
  · rw [List.mem_singleton] at h2
    subst h2
    have hg : getVal (setVal (roadmapDoc p) "_id" (Value.str genId)) "progress" =
        some (match p.progress with | some q => Value.num q | none => Value.null) := rfl
    unfold progressOk
    rw [hg]
    cases hp : p.progress with
    | none => rfl
    | some q =>
        unfold validRoadmapP at hv
        rw [hp] at hv
        exact hv

/-- C7 witness: creating a validated roadmap with progress 50 in an empty
store leaves its persisted document satisfying the invariant. -/
theorem roadmap_progress_invariant_on_create_witness :
    progressOk doc_w7 = true :=
  roadmap_progress_invariant_on_create ⟨[], [], []⟩ p_w7 "g1" (by decide)
    (fun d hd => absurd hd (List.not_mem_nil d))
    ⟨[], [doc_w7], []⟩ (.ok "g1") rfl doc_w7 (List.mem_singleton.mpr rfl)

/-- C8: when the offset `(page - 1) * limit` is at or beyond the number
of matching documents, the recommendations handler still succeeds,
returning an empty `data` array while `meta.total` is the true count of
matching documents. -/
theorem recommendations_beyond_last_page (db : DBState) (cat lvl : Option String)
    (page limit : Nat) (hp : 1 ≤ page) (hl1 : 1 ≤ limit) (hl2 : limit ≤ 50)
    (hbeyond : (db.resource.filter (matchesRecFilter cat lvl)).length ≤
      (page - 1) * limit) :
    get_recommendations (some db) cat lvl page limit =
      .ok { data := [],
            meta := { page := page, limit := limit,
                      total := (db.resource.filter (matchesRecFilter cat lvl)).length } } := by
  have hdrop : (sortRecs (db.resource.filter (matchesRecFilter cat lvl))).drop
      ((page - 1) * limit) = [] := by
    apply List.drop_eq_nil_of_le
    rw [length_sortRecs]
    exact hbeyond
  calc get_recommendations (some db) cat lvl page limit
      = .ok { data := (((sortRecs (db.resource.filter (matchesRecFilter cat lvl))).drop
                         ((page - 1) * limit)).take limit).map resource_to_public,
              meta := { page := page, limit := limit,
                        total := (db.resource.filter (matchesRecFilter cat lvl)).length } } :=
        rfl
    _ = .ok { data := [],
              meta := { page := page, limit := limit,
                        total := (db.resource.filter (matchesRecFilter cat lvl)).length } } := by
        rw [hdrop]; simp

/-- C8 witness: page 5 with limit 10 against three matching documents
succeeds with empty data and `total = 3`. -/
theorem recommendations_beyond_last_page_witness :
    get_recommendations (some db_w1) none none 5 10 =
      .ok { data := [], meta := { page := 5, limit := 10, total := 3 } } :=
  recommendations_beyond_last_page db_w1 none none 5 10 (by decide) (by decide)
    (by decide) (by decide)

/-- C9: with the store unconfigured (`db is None`), every one of the six
operations fails immediately with the 500 "Database not configured"
error, touching no store state; the detail is a fixed generic string. -/
theorem store_unavailable_rejects_all_ops :
    (∀ cat lvl page limit, get_recommendations none cat lvl page limit = .error dbError) ∧
    (∀ rid, get_resource none rid = .error dbError) ∧
    (∀ p genId, create_roadmap none p genId = (none, .error dbError)) ∧
    (∀ rid body, update_roadmap none rid body = (none, .error dbError)) ∧
    (∀ p, save_item none p = (none, .error dbError)) ∧
    (∀ q cat lvl limit, search none q cat lvl limit = .error dbError) ∧
    dbError.status = 500 ∧ dbError.detail = "Database not configured" :=
  ⟨fun _ _ _ _ => rfl, fun _ => rfl, fun _ _ => rfl, fun _ _ => rfl, fun _ => rfl,
   fun _ _ _ _ => rfl, rfl, rfl⟩

/-- C10: when no resource's `_id` equals the requested identifier, the
handler falls back to the public `id` field: the first document whose
`id` field equals the identifier is returned normalized, and the 404
error is raised only when that lookup finds nothing either. -/
theorem get_resource_public_id_fallback (db : DBState) (rid : String)
    (hnone : ∀ d ∈ db.resource, isStrEq (getVal d "_id") rid = false) :
    (∀ d, db.resource.find? (fun d => isStrEq (getVal d "id") rid) = some d →
        get_resource (some db) rid = .ok (resource_to_public d)) ∧
    (db.resource.find? (fun d => isStrEq (getVal d "id") rid) = none →
        get_resource (some db) rid = .error resourceNotFound) := by
  have h1 : db.resource.find? (fun d => isStrEq (getVal d "_id") rid) = none :=
    List.find?_eq_none.mpr (fun d hd => by simp [hnone d hd])
  constructor
  · intro d hd
    have hpd := List.find?_some hd
    have hne : d.isEmpty = false := by
      cases d with
      | nil => simp [isStrEq, getVal] at hpd
      | cons a t => rfl
    simp [get_resource, pyOr, h1, hd, hne]
  · intro hd
    simp [get_resource, pyOr, h1, hd]

/-- C10 witness: a stored document with public `id = "x7"` and no `_id`
is returned normalized for identifier `x7`, and identifier `nope`
404s. -/
theorem get_resource_public_id_fallback_witness :
    get_resource (some db_w10) "x7" = .ok (resource_to_public doc_w10) ∧
    get_resource (some db_w10) "nope" = .error resourceNotFound := by
  have hnone7 : ∀ d ∈ db_w10.resource, isStrEq (getVal d "_id") "x7" = false := by
    intro d hd
    have hd' : d ∈ [doc_w10] := hd
    rw [List.mem_singleton] at hd'
    subst hd'
    rfl
  have hnoneN : ∀ d ∈ db_w10.resource, isStrEq (getVal d "_id") "nope" = false := by
    intro d hd
    have hd' : d ∈ [doc_w10] := hd
    rw [List.mem_singleton] at hd'
    subst hd'
    rfl
  have h1 := get_resource_public_id_fallback db_w10 "x7" hnone7
  have h2 := get_resource_public_id_fallback db_w10 "nope" hnoneN
  exact ⟨h1.1 doc_w10 rfl, h2.2 rfl⟩

end SSR
